import Mathlib

/-!
Verification development for the AIGame orchestration engine
(`function_app.py`).  The Python source is shallowly embedded: pure
helpers become Lean functions, the stateful dispatch loop becomes a
fuel-indexed step function over explicit state, and the external
collaborators (LLM provider, tool agents, Azure file storage, the
`json` standard library parser) are passed in as explicit oracles, so
that every theorem quantifies over their behaviour exactly where the
Python code treats them as black boxes.
-/

set_option maxRecDepth 4096

/-! ## Python value model (for conversation-history entries) -/

/-- Model of the Python values that can appear in a conversation-history
entry delivered by the HTTP layer (JSON-derived: `None`, booleans,
integers, strings, lists, and string-keyed dicts). -/
inductive PyVal where
  | none
  | bool (b : Bool)
  | int (n : Int)
  | str (s : String)
  | list (xs : List PyVal)
  | dict (kvs : List (String × PyVal))

/-- Python `dict` assignment `m[k] = v`: update the first (unique) binding
in place if the key exists, otherwise append the new binding at the end.
This is the registry-map update used by `load_agents_from_folder`
(`declared_agents[agent_instance.name] = agent_instance`) and
`reload_agents`. -/
def dictInsert {α : Type} : List (String × α) → String → α → List (String × α)
  | [], k, v => [(k, v)]
  | (k0, v0) :: rest, k, v =>
      if k0 = k then (k0, v) :: rest else (k0, v0) :: dictInsert rest k v

mutual
/-- Model of CPython `str(x)` on the `PyVal` fragment (library model: the
escaping CPython performs inside `repr` of nested strings is simplified,
which no theorem below depends on). -/
def pyStr : PyVal → String
  | .none => "None"
  | .bool true => "True"
  | .bool false => "False"
  | .int n => toString n
  | .str s => s
  | .list xs => "[" ++ pyReprList xs ++ "]"
  | .dict kvs => "\x7b" ++ pyReprDict kvs ++ "\x7d"

/-- Model of CPython `repr(x)` on the `PyVal` fragment. -/
def pyRepr : PyVal → String
  | .none => "None"
  | .bool true => "True"
  | .bool false => "False"
  | .int n => toString n
  | .str s => "\x27" ++ s ++ "\x27"
  | .list xs => "[" ++ pyReprList xs ++ "]"
  | .dict kvs => "\x7b" ++ pyReprDict kvs ++ "\x7d"

/-- Comma-joined `repr` of list elements, as CPython renders list bodies. -/
def pyReprList : List PyVal → String
  | [] => ""
  | [x] => pyRepr x
  | x :: xs => pyRepr x ++ ", " ++ pyReprList xs

/-- Comma-joined `repr` of dict entries, as CPython renders dict bodies. -/
def pyReprDict : List (String × PyVal) → String
  | [] => ""
  | [(k, v)] => "\x27" ++ k ++ "\x27: " ++ pyRepr v
  | (k, v) :: rest => "\x27" ++ k ++ "\x27: " ++ pyRepr v ++ ", " ++ pyReprDict rest
end

/-- Lookup a key of a `PyVal.dict` (Python `message.get(k)` restricted to
dict receivers); on any non-dict value `.get` does not exist. -/
def pyLookup (v : PyVal) (k : String) : Option PyVal :=
  match v with
  | .dict kvs => kvs.lookup k
  | _ => Option.none

/-- Embedding of `ensure_string_content` (function_app.py, lines 20-42):
total normalization of one conversation-history entry. -/
def ensure_string_content (message : PyVal) : PyVal :=
  match message with
  | .none => .dict [("role", .str "user"), ("content", .str "")]
  | .dict kvs =>
      let m1 := if (kvs.lookup "role").isSome then kvs
                else dictInsert kvs "role" (.str "user")
      let m2 := match m1.lookup "content" with
                | some content =>
                    dictInsert m1 "content"
                      (.str (match content with
                             | .none => ""
                             | c => pyStr c))
                | Option.none => dictInsert m1 "content" (.str "")
      .dict m2
  | v => .dict [("role", .str "user"), ("content", .str (pyStr v))]

/-! ## String utilities (Python `str.strip`, `str.split`, guid regexes) -/

/-- ASCII whitespace stripped by Python `str.strip()`. -/
def isPySpace (c : Char) : Bool :=
  c = ' ' || c = '\t' || c = '\n' || c = '\r' || c = '\x0b' || c = '\x0c'

/-- Model of Python `s.strip()` (leading and trailing whitespace removed). -/
def pyStrip (s : String) : String :=
  String.mk (((s.data.dropWhile isPySpace).reverse.dropWhile isPySpace).reverse)

/-- Hexadecimal digit of the guid regex character class `[0-9a-f]` with
`re.IGNORECASE` (so `A-F` also matches). -/
def hexChar (c : Char) : Bool :=
  ('0' ≤ c && c ≤ '9') || ('a' ≤ c && c ≤ 'f') || ('A' ≤ c && c ≤ 'F')

/-- Consume exactly `n` hexadecimal characters, returning the rest. -/
def hexRun : Nat → List Char → Option (List Char)
  | 0, cs => some cs
  | _ + 1, [] => Option.none
  | n + 1, c :: cs => if hexChar c then hexRun n cs else Option.none

/-- Consume one `-`, returning the rest. -/
def dashRun : List Char → Option (List Char)
  | '-' :: cs => some cs
  | _ => Option.none

/-- Model of the anchored case-insensitive guid regex
`^[0-9a-f]{8}-[0-9a-f]{4}-[0-9a-f]{4}-[0-9a-f]{4}-[0-9a-f]{12}$` used by
`extract_user_guid`, `_check_first_message_for_guid` and the HTTP layer. -/
def guidShape (s : String) : Bool :=
  (do
    let r ← hexRun 8 s.data
    let r ← dashRun r
    let r ← hexRun 4 r
    let r ← dashRun r
    let r ← hexRun 4 r
    let r ← dashRun r
    let r ← hexRun 4 r
    let r ← dashRun r
    let r ← hexRun 12 r
    if r = [] then some () else Option.none).isSome

/-- Separator class `[:=\s]` of the labeled-guid regex. -/
def isSepChar (c : Char) : Bool :=
  c = ':' || c = '=' || isPySpace c

/-- Character class `[0-9a-f-]` (case-insensitive) of the labeled-guid
regex group. -/
def guidClassChar (c : Char) : Bool :=
  hexChar c || c = '-'

/-- Lower-case a latin letter for the case-insensitive `guid` keyword. -/
def lowEq (c target : Char) : Bool :=
  c = target || c = Char.ofNat (target.toNat - 32)

/-- Model of the labeled-guid regex `^guid[:=\s]+([0-9a-f-]{36})$` with
`re.IGNORECASE` (function_app.py line 293): keyword `guid`, one or more
separators, then a 36-character group running to the end. -/
def labeledGuid (s : String) : Option String :=
  match s.data with
  | g :: u :: i :: d :: rest =>
      if lowEq g 'g' && lowEq u 'u' && lowEq i 'i' && lowEq d 'd' then
        let seps := rest.takeWhile isSepChar
        let tail := rest.dropWhile isSepChar
        if seps ≠ [] && tail.length = 36 && tail.all guidClassChar then
          some (String.mk tail)
        else Option.none
      else Option.none
  | _ => Option.none

/-- Embedding of `Assistant.extract_user_guid` (lines 281-298): returns the
guid only when the entire (stripped) message is a guid, or when it is a
`guid: ...`-labeled standalone guid. -/
def extract_user_guid (text : String) : Option String :=
  let t := pyStrip text
  if guidShape t then some t else labeledGuid t

/-- Embedding of `Assistant._check_first_message_for_guid` (lines 232-246).
`Except.error ()` models the `AttributeError` raised by `.get` when the
first history entry is not a dict (caught by the outer handler of
`get_response`). -/
def check_first_message_for_guid (conversationHistory : List PyVal) :
    Except Unit (Option String) :=
  match conversationHistory with
  | [] => .ok Option.none
  | first :: _ =>
      match first with
      | .dict kvs =>
          match kvs.lookup "role" with
          | some (.str r) =>
              if r = "user" then
                match kvs.lookup "content" with
                | Option.none => .ok Option.none
                | some .none => .ok Option.none
                | some content =>
                    let c := pyStrip (pyStr content)
                    .ok (if guidShape c then some c else Option.none)
              else .ok Option.none
          | _ => .ok Option.none
      | _ => .error ()

/-- History trimming at the top of `get_response` (lines 449-452): keep the
most recent 20 turns. -/
def trimHistory (h : List PyVal) : List PyVal :=
  if h.length > 20 then h.drop (h.length - 20) else h

/-- Python `s.endswith(suffix)`. -/
def endsWithL (s suffix : String) : Bool :=
  suffix.data.reverse.isPrefixOf s.data.reverse

/-! ## JSON values and the `json` standard library model

`json.dumps` is embedded concretely (default separators, as the source
calls it); `json.loads` — an external standard-library parser — is passed
to every function that parses as an explicit `loads` parameter, with its
documented behaviour (e.g. parsing back what `dumps` produced) supplied as
hypotheses exactly where a property needs it. -/

/-- JSON values as produced by `json.loads` / consumed by `json.dumps`.
Numbers are modelled as integers (no claim involves floats). -/
inductive Json where
  | null
  | bool (b : Bool)
  | num (n : Int)
  | str (s : String)
  | arr (elems : List Json)
  | obj (fields : List (String × Json))

/-- String escaping of `json.dumps` (library model restricted to the
escapes exercised here: quote, backslash and common control characters). -/
def escChar (c : Char) : List Char :=
  if c = '"' then ['\\', '"']
  else if c = '\\' then ['\\', '\\']
  else if c = '\n' then ['\\', 'n']
  else if c = '\t' then ['\\', 't']
  else if c = '\r' then ['\\', 'r']
  else [c]

/-- Escape a whole string for JSON serialization. -/
def jEscape (s : String) : String :=
  String.mk (s.data.foldr (fun c acc => escChar c ++ acc) [])

mutual
/-- Model of `json.dumps` with the CPython default separators
(`", "` and `": "`), as called by `get_response`. -/
def Json.dumps : Json → String
  | .null => "null"
  | .bool true => "true"
  | .bool false => "false"
  | .num n => toString n
  | .str s => "\"" ++ jEscape s ++ "\""
  | .arr xs => "[" ++ Json.dumpsArr xs ++ "]"
  | .obj kvs => "\x7b" ++ Json.dumpsObj kvs ++ "\x7d"

/-- Serialize array elements, comma-separated. -/
def Json.dumpsArr : List Json → String
  | [] => ""
  | [x] => Json.dumps x
  | x :: xs => Json.dumps x ++ ", " ++ Json.dumpsArr xs

/-- Serialize object fields, comma-separated. -/
def Json.dumpsObj : List (String × Json) → String
  | [] => ""
  | [(k, v)] => "\"" ++ jEscape k ++ "\": " ++ Json.dumps v
  | (k, v) :: rest =>
      "\"" ++ jEscape k ++ "\": " ++ Json.dumps v ++ ", " ++ Json.dumpsObj rest
end

/-- Python truthiness `bool(x)` of a JSON-derived value, used by
the follow-up check on the `error` field of the tool result. -/
def jTruthy : Json → Bool
  | .null => false
  | .bool b => b
  | .num n => decide (n ≠ 0)
  | .str s => decide (s ≠ "")
  | .arr [] => false
  | .arr (_ :: _) => true
  | .obj [] => false
  | .obj (_ :: _) => true

/-! ## Response codec (`parse_response_with_game_data`) -/

/-- The fixed dual-channel delimiter `|||GAME_DATA|||` as characters. -/
def delimChars : List Char :=
  '|' :: '|' :: '|' :: 'G' :: 'A' :: 'M' :: 'E' :: '_' :: 'D' :: 'A' :: 'T' :: 'A' :: '|' :: '|' :: '|' :: []

/-- Leftmost occurrence of the delimiter: `some (before, after)` splits the
input around its first occurrence, `none` if it does not occur.  This is
the primitive from which Python `str.split(delim)` is built. -/
def findDelim : List Char → Option (List Char × List Char)
  | [] => Option.none
  | c :: cs =>
      if delimChars.isPrefixOf (c :: cs) then some ([], (c :: cs).drop 15)
      else
        match findDelim cs with
        | Option.none => Option.none
        | some (p, q) => some (c :: p, q)

theorem findDelim_length {s p q : List Char} (h : findDelim s = some (p, q)) :
    q.length < s.length := by
  induction s generalizing p q with
  | nil => simp [findDelim] at h
  | cons c cs ih =>
      rw [findDelim] at h
      split at h
      · rename_i hpre
        obtain ⟨h1, h2⟩ := Prod.mk.injEq .. ▸ (Option.some.injEq .. ▸ h)
        subst h2
        have hlen : 15 ≤ (c :: cs).length := by
          have := List.IsPrefix.length_le ((List.isPrefixOf_iff_prefix).mp hpre)
          simpa [delimChars] using this
        simp only [List.length_drop]
        omega
      · match hf : findDelim cs with
        | Option.none => rw [hf] at h; exact absurd h (by simp)
        | some (p', q') =>
            rw [hf] at h
            obtain ⟨h1, h2⟩ := Prod.mk.injEq .. ▸ (Option.some.injEq .. ▸ h)
            subst h2
            have := ih hf
            simp only [List.length_cons]
            omega

/-- Python `content.split("|||GAME_DATA|||")`: non-overlapping left-to-right
splitting on every occurrence of the delimiter. -/
def splitDelim (s : List Char) : List (List Char) :=
  match h : findDelim s with
  | Option.none => [s]
  | some (p, q) => p :: splitDelim q
termination_by s.length
decreasing_by exact findDelim_length h

/-- Embedding of `Assistant.parse_response_with_game_data` (lines 428-445):
split on the delimiter; with at least two parts, the narrative is the
stripped first part and the game data is the JSON parse of the stripped
second part (any parse failure degrades to `{}`); otherwise the whole
text is narrative. -/
def parse_response_with_game_data (loads : String → Option Json)
    (content : String) : String × Json :=
  if content = "" then ("", Json.obj [])
  else
    match splitDelim content.data with
    | p0 :: p1 :: _ =>
        (pyStrip (String.mk p0),
         (loads (pyStrip (String.mk p1))).getD (Json.obj []))
    | _ => (pyStrip content, Json.obj [])

/-- The follow-up inspection of a tool result (lines 535-544): re-invoke the
model iff the result parses as a JSON object with a truthy `error`, a
`status` equal to `"incomplete"`, or `requires_additional_action == True`
(Python `==` also accepts the integer `1` for `True`). -/
def needsFollowUp (loads : String → Option Json) (result : String) : Bool :=
  match loads result with
  | some (.obj kvs) =>
      (match kvs.lookup "error" with
       | some v => jTruthy v
       | Option.none => false)
      || (match kvs.lookup "status" with
          | some (.str s) => s = "incomplete"
          | _ => false)
      || (match kvs.lookup "requires_additional_action" with
          | some (.bool b) => b
          | some (.num n) => n = 1
          | _ => false)
  | _ => false

/-! ## Tool registry (`load_agents_from_folder`, `reload_agents`)

The storage backend (`AzureFileStorageManager`, whose source lives in
`utils/azure_file_storage.py`, outside the embedded tree) is an external
oracle: listing a namespace may raise or yield candidates, reading a
candidate may raise, return `None`, or return content, and executing a
candidate code may register any number of agents before optionally
raising.  The scratch filesystem is threaded explicitly as the list of
temporary files currently present. -/

/-- A Python object offered to the registry: either it has a `name`
attribute (the normal `BasicAgent` instance case) or it lacks one.  The
`id` distinguishes instances. -/
inductive PyObj where
  | agent (name : String) (id : Nat)
  | plain (id : Nat)

/-- Outcome of loading one candidate source: the `(instance.name, instance)`
registrations performed before control left the loading block, and whether
the block then raised (import error, failed instantiation, ...). -/
structure LoadResult where
  regs : List (String × PyObj)
  throws : Bool

/-- Outcome of `storage_manager.read_file` for one candidate. -/
inductive ReadResult where
  | raise
  | missing
  | content

/-- One dynamically fetched candidate: its file name, what reading it does,
and what executing it does. -/
structure StorageCand where
  name : String
  read : ReadResult
  load : LoadResult

/-- Behaviour of the whole discovery environment: bundled candidate files
with their load outcomes, and the two storage namespaces (listing either
may raise). -/
structure DiscoveryOracle where
  localCands : List (String × LoadResult)
  listAgents : Except Unit (List StorageCand)
  listMulti : Except Unit (List StorageCand)

/-- Apply a block of registrations to the registry map
(`declared_agents[agent_instance.name] = agent_instance`, in order). -/
def applyRegs (reg : List (String × PyObj)) (regs : List (String × PyObj)) :
    List (String × PyObj) :=
  regs.foldl (fun acc kv => dictInsert acc kv.1 kv.2) reg

/-- The bundled-candidate filter (line 79): `.py` files other than
`__init__.py` and `basic_agent.py`. -/
def localCandOk (f : String) : Bool :=
  endsWithL f ".py" && f ≠ "__init__.py" && f ≠ "basic_agent.py"

/-- The bundled-agent loop (lines 81-92): every candidate is loaded inside
`try/except`, so a raise keeps the registrations already made and moves on. -/
def loadLocalCands (reg : List (String × PyObj)) :
    List (String × LoadResult) → List (String × PyObj)
  | [] => reg
  | (f, lr) :: rest =>
      if localCandOk f then loadLocalCands (applyRegs reg lr.regs) rest
      else loadLocalCands reg rest

/-- Scratch-filesystem write: `open(temp_file, 'w')` creates the file if it
does not exist. -/
def fsWrite (fs : List String) (path : String) : List String :=
  if fs.contains path then fs else fs.concat path

/-- Scratch-filesystem delete: `os.remove(temp_file)`. -/
def fsRemove (fs : List String) (path : String) : List String :=
  fs.erase path

/-- The candidate loop of one storage namespace (lines 98-133 and 142-189):
filter on `_agent.py`, read (raise/`None` skip the candidate), materialize
the scratch file, execute, and — only when execution did not raise — remove
the scratch file.  The per-candidate `try/except` absorbs every raise and
keeps partial registrations. -/
def loadStorageCands (dir : String) (reg : List (String × PyObj))
    (fs : List String) : List StorageCand → List (String × PyObj) × List String
  | [] => (reg, fs)
  | c :: rest =>
      if endsWithL c.name "_agent.py" then
        match c.read with
        | .raise => loadStorageCands dir reg fs rest
        | .missing => loadStorageCands dir reg fs rest
        | .content =>
            let path := dir ++ "/" ++ c.name
            let fs1 := fsWrite fs path
            let reg1 := applyRegs reg c.load.regs
            if c.load.throws then loadStorageCands dir reg1 fs1 rest
            else loadStorageCands dir reg1 (fsRemove fs1 path) rest
      else loadStorageCands dir reg fs rest

/-- Embedding of `load_agents_from_folder` (lines 76-194): bundled agents,
then the `agents` storage namespace into `/tmp/agents`, then the
`multi_agents` namespace into `/tmp/multi_agents`.  A raise while listing a
namespace abandons only that namespace (outer `try/except`).  Returns the
registry and the final scratch-filesystem contents.  Construction of the
storage manager (line 94) is modelled from the spec as non-raising; the
`list_files`/`read_file` behaviour is given by the oracle. -/
def load_agents_from_folder (o : DiscoveryOracle) :
    List (String × PyObj) × List String :=
  let reg0 := loadLocalCands [] o.localCands
  let step1 :=
    match o.listAgents with
    | .error _ => (reg0, ([] : List String))
    | .ok cs => loadStorageCands "/tmp/agents" reg0 [] cs
  match o.listMulti with
  | .error _ => step1
  | .ok cs => loadStorageCands "/tmp/multi_agents" step1.1 step1.2 cs

/-- Inputs accepted by `reload_agents` (lines 307-321): a dict of agents, a
list of agents, or anything else. -/
inductive AgentObjs where
  | dict (kvs : List (String × PyObj))
  | lst (xs : List PyObj)
  | other

/-- Embedding of `Assistant.reload_agents`: rebuild the registry map keyed
by the `name` attribute of each agent (falling back to the dict key when the
object has no `name`; list elements without `name` are skipped). -/
def reload_agents (ao : AgentObjs) : List (String × PyObj) :=
  match ao with
  | .dict kvs =>
      kvs.foldl
        (fun acc kv =>
          match kv.2 with
          | .agent n i => dictInsert acc n (.agent n i)
          | .plain i => dictInsert acc kv.1 (.plain i))
        []
  | .lst xs =>
      xs.foldl
        (fun acc a =>
          match a with
          | .agent n i => dictInsert acc n (.agent n i)
          | .plain _ => acc)
        []
  | .other => []

/-- Number of entries of an association list carrying a given key. -/
def countKey {α : Type} (m : List (String × α)) (k : String) : Nat :=
  m.countP (fun p => p.1 == k)

/-! ## Dispatch loop (`get_response`)

The LLM provider is an oracle mapping the index of each chat-completion
call to its outcome; tool agents are an oracle mapping the index of each
invocation to its outcome.  The loop itself is fuel-indexed: `none` means
the `while` loop was still running after `fuel` iterations. -/

/-- Outcome of one `client.chat.completions.create` call: a raised
provider/network error, a direct reply (content may be `None`), or a
function call (with its raw `arguments` string and optional content). -/
inductive ModelResult where
  | err
  | reply (content : Option String)
  | call (name : String) (args : Option String) (content : Option String)

/-- Outcome of one `agent.perform(**params)` invocation: a raised
exception (also covering failures of the surrounding argument-sanitizing
block, which shares its `try`), or a result (`None` allowed). -/
inductive ToolResult where
  | raise (msg : String)
  | ret (result : Option String)

/-- The `message.content or ""` accessor used by the follow-up call. -/
def contentOf : ModelResult → Option String
  | .err => Option.none
  | .reply c => c
  | .call _ _ c => c

/-- Mutable state of the `while retry_count < max_retries` loop: the retry
counter, how many model calls and tool invocations have been consumed,
the accumulated `agent_logs`, and how many `time.sleep` backoffs ran. -/
structure LoopState where
  retry : Nat
  mIdx : Nat
  tIdx : Nat
  logs : List String
  sleeps : Nat

/-- Terminal output of `get_response`: the returned triple plus the
observable effect counters. -/
structure GOut where
  narrative : String
  gameData : String
  agentLogs : String
  modelCalls : Nat
  toolCalls : Nat
  sleeps : Nat

/-- Embedding of the `while retry_count < max_retries` loop of
`get_response` (lines 482-562), one iteration per unit of fuel.
Every `return` site of the Python loop appears as a `some`; falling out of
the `while` (only possible when `retry_count ≥ max_retries` at entry)
yields the `"Service temporarily unavailable."` message of line 562.
Provider errors (from either the first or the follow-up call of an
iteration) take the `except` path of lines 553-560. -/
def dispatchLoop (loads : String → Option Json) (reg : List (String × PyObj))
    (oM : Nat → ModelResult) (oT : Nat → ToolResult) (maxRetries : Nat) :
    Nat → LoopState → Option GOut
  | 0, _ => Option.none
  | fuel + 1, st =>
      if st.retry < maxRetries then
        match oM st.mIdx with
        | .err =>
            if st.retry + 1 < maxRetries then
              dispatchLoop loads reg oM oT maxRetries fuel
                ⟨st.retry + 1, st.mIdx + 1, st.tIdx, st.logs, st.sleeps + 1⟩
            else
              some ⟨"An error occurred. Please try again.", "\x7b\x7d", "",
                    st.mIdx + 1, st.tIdx, st.sleeps⟩
        | .reply c =>
            let p := parse_response_with_game_data loads (c.getD "")
            some ⟨p.1, Json.dumps p.2, String.intercalate "\n" st.logs,
                  st.mIdx + 1, st.tIdx, st.sleeps⟩
        | .call name _ _ =>
            match reg.lookup name with
            | Option.none =>
                some ⟨"Agent \x27" ++ name ++ "\x27 does not exist", "\x7b\x7d", "",
                      st.mIdx + 1, st.tIdx, st.sleeps⟩
            | some _ =>
                match oT st.tIdx with
                | .raise msg =>
                    some ⟨"Error executing agent: " ++ msg, "\x7b\x7d", "",
                          st.mIdx + 1, st.tIdx + 1, st.sleeps⟩
                | .ret r =>
                    let result :=
                      match r with
                      | Option.none => "Agent completed successfully"
                      | some s => s
                    let logs := st.logs ++
                      ["Performed " ++ name ++ " and got result: " ++ result]
                    if needsFollowUp loads result then
                      dispatchLoop loads reg oM oT maxRetries fuel
                        ⟨st.retry, st.mIdx + 1, st.tIdx + 1, logs, st.sleeps⟩
                    else
                      match oM (st.mIdx + 1) with
                      | .err =>
                          if st.retry + 1 < maxRetries then
                            dispatchLoop loads reg oM oT maxRetries fuel
                              ⟨st.retry + 1, st.mIdx + 2, st.tIdx + 1, logs,
                               st.sleeps + 1⟩
                          else
                            some ⟨"An error occurred. Please try again.",
                                  "\x7b\x7d", "", st.mIdx + 2, st.tIdx + 1,
                                  st.sleeps⟩
                      | fm =>
                          let p := parse_response_with_game_data loads
                                     ((contentOf fm).getD "")
                          some ⟨p.1, Json.dumps p.2,
                                String.intercalate "\n" logs,
                                st.mIdx + 2, st.tIdx + 1, st.sleeps⟩
      else
        some ⟨"Service temporarily unavailable. Please try again later.",
              "\x7b\x7d", "", st.mIdx, st.tIdx, st.sleeps⟩

/-- The fixed fallback identity (line 18). -/
def DEFAULT_USER_GUID : String := "c0p110t0-aaaa-bbbb-cccc-123456789abc"

/-- The identity-resolution block of `get_response` (lines 454-466): the
guid of a guid-only first history entry wins over a guid extracted from the
prompt; an identity differing from the active one replaces it; an empty
active identity falls back to the default. -/
def resolveGuid (userGuid : String) (gh gp : Option String) : String :=
  match (match gh with
         | some g => some g
         | Option.none => gp) with
  | some t =>
      if t = userGuid then
        (if userGuid = "" then DEFAULT_USER_GUID else userGuid)
      else t
  | Option.none => if userGuid = "" then DEFAULT_USER_GUID else userGuid

/-- The session-bootstrap short-circuit condition of line 470:
`guid_from_prompt and prompt.strip() == guid_from_prompt and
self.user_guid == guid_from_prompt`. -/
def scFire (prompt userGuid : String) (gp : Option String) : Bool :=
  match gp with
  | some g => (pyStrip prompt == g) && (userGuid == g)
  | Option.none => false

/-- Embedding of `Assistant.get_response` (lines 447-566): trim the
history, resolve the identity, possibly short-circuit the session
bootstrap, and otherwise run the dispatch loop.  The `AttributeError` a
non-dict first history entry raises inside `_check_first_message_for_guid`
is caught by the outer handler of lines 564-566.  (`prepare_messages` only
shapes the prompt text, which no oracle here inspects, so it contributes no
observable effect; `_initialize_context_memory` swallows all its errors and
is modelled as effect-free.) -/
def get_response (loads : String → Option Json) (reg : List (String × PyObj))
    (oM : Nat → ModelResult) (oT : Nat → ToolResult)
    (maxRetries fuel : Nat) (userGuid prompt : String)
    (history : List PyVal) : Option GOut :=
  let hist := trimHistory history
  match check_first_message_for_guid hist with
  | .error _ =>
      some ⟨"A critical error occurred. Please try again.", "\x7b\x7d", "",
            0, 0, 0⟩
  | .ok gh =>
      let gp := extract_user_guid prompt
      let ug := resolveGuid userGuid gh gp
      if scFire prompt ug gp then
        some ⟨"Game world initialized. Your adventure awaits!",
              Json.dumps (Json.obj
                [("event", Json.str "world_init"), ("status", Json.str "ready")]),
              "", 0, 0, 0⟩
      else
        dispatchLoop loads reg oM oT maxRetries fuel ⟨0, 0, 0, [], 0⟩

/-! ## Registry-map lemmas -/

theorem dictInsert_lookup_self {α : Type} (m : List (String × α)) (k : String)
    (v : α) : (dictInsert m k v).lookup k = some v := by
  induction m with
  | nil => simp [dictInsert, List.lookup]
  | cons hd tl ih =>
      obtain ⟨k0, v0⟩ := hd
      by_cases hk : k0 = k
      · subst hk
        simp [dictInsert, List.lookup]
      · have hb : (k == k0) = false := beq_eq_false_iff_ne.mpr (Ne.symm hk)
        simp only [dictInsert, if_neg hk, List.lookup, hb]
        exact ih

theorem dictInsert_lookup_ne {α : Type} (m : List (String × α)) (k k' : String)
    (v : α) (h : k' ≠ k) : (dictInsert m k v).lookup k' = m.lookup k' := by
  induction m with
  | nil =>
      have hb : (k' == k) = false := beq_eq_false_iff_ne.mpr h
      simp [dictInsert, List.lookup, hb]
  | cons hd tl ih =>
      obtain ⟨k0, v0⟩ := hd
      by_cases hk : k0 = k
      · subst hk
        have hb : (k' == k0) = false := beq_eq_false_iff_ne.mpr h
        simp [dictInsert, List.lookup, hb]
      · by_cases hk' : k' = k0
        · subst hk'
          simp [dictInsert, if_neg hk, List.lookup]
        · have hb : (k' == k0) = false := beq_eq_false_iff_ne.mpr hk'
          simp only [dictInsert, if_neg hk, List.lookup, hb]
          exact ih

theorem mem_keys_dictInsert {α : Type} (m : List (String × α)) (k x : String)
    (v : α) :
    x ∈ (dictInsert m k v).map Prod.fst ↔ x ∈ m.map Prod.fst ∨ x = k := by
  induction m with
  | nil => simp [dictInsert]
  | cons hd tl ih =>
      obtain ⟨k0, v0⟩ := hd
      simp only [dictInsert]
      split
      · rename_i hk
        subst hk
        simp only [List.map_cons, List.mem_cons]
        tauto
      · simp only [List.map_cons, List.mem_cons, ih]
        tauto

theorem nodup_keys_dictInsert {α : Type} (m : List (String × α)) (k : String)
    (v : α) (h : (m.map Prod.fst).Nodup) :
    ((dictInsert m k v).map Prod.fst).Nodup := by
  induction m with
  | nil => simp [dictInsert]
  | cons hd tl ih =>
      obtain ⟨k0, v0⟩ := hd
      simp only [List.map_cons, List.nodup_cons] at h
      by_cases hk : k0 = k
      · simp only [dictInsert, if_pos hk, List.map_cons, List.nodup_cons]
        exact h
      · simp only [dictInsert, if_neg hk, List.map_cons, List.nodup_cons]
        refine ⟨?_, ih h.2⟩
        rw [mem_keys_dictInsert]
        rintro (hc | hc)
        · exact h.1 hc
        · exact hk hc

theorem countKey_eq_zero {α : Type} (m : List (String × α)) (k : String)
    (h : k ∉ m.map Prod.fst) : countKey m k = 0 := by
  rw [countKey, List.countP_eq_zero]
  intro p hp hbeq
  exact h (List.mem_map.mpr ⟨p, hp, (beq_iff_eq.mp hbeq)⟩)

theorem countKey_dictInsert_self {α : Type} (m : List (String × α)) (k : String)
    (v : α) (h : (m.map Prod.fst).Nodup) : countKey (dictInsert m k v) k = 1 := by
  induction m with
  | nil => simp [dictInsert, countKey]
  | cons hd tl ih =>
      obtain ⟨k0, v0⟩ := hd
      simp only [List.map_cons, List.nodup_cons] at h
      simp only [dictInsert]
      split
      · rename_i hk
        subst hk
        have h0 : countKey tl k0 = 0 := countKey_eq_zero tl k0 h.1
        simp only [countKey, List.countP_cons] at h0 ⊢
        simp [h0]
      · rename_i hk
        have hb : (k0 == k) = false := beq_eq_false_iff_ne.mpr hk
        have hrec := ih h.2
        simp only [countKey, List.countP_cons] at hrec ⊢
        simp [hb, hrec]

/-! ## Claim C7 -/

/-- C7: conversation-turn normalization (`ensure_string_content`) is total
and always yields a turn whose `content` is a string; a missing `role`
defaults to `"user"`, missing or `None` content becomes the empty string,
and a `None` entry becomes an empty user turn. -/
theorem c7_theorem (v : PyVal) :
    (∃ s : String, pyLookup (ensure_string_content v) "content" = some (.str s))
    ∧ ensure_string_content PyVal.none
        = PyVal.dict [("role", .str "user"), ("content", .str "")]
    ∧ (∀ kvs : List (String × PyVal), kvs.lookup "role" = Option.none →
        pyLookup (ensure_string_content (PyVal.dict kvs)) "role"
          = some (.str "user"))
    ∧ (∀ kvs : List (String × PyVal), kvs.lookup "content" = Option.none →
        pyLookup (ensure_string_content (PyVal.dict kvs)) "content"
          = some (.str ""))
    ∧ (∀ kvs : List (String × PyVal), kvs.lookup "content" = some PyVal.none →
        pyLookup (ensure_string_content (PyVal.dict kvs)) "content"
          = some (.str "")) := by
  refine ⟨?_, rfl, ?_, ?_, ?_⟩
  · match v with
    | .none => exact ⟨"", rfl⟩
    | .bool b => exact ⟨pyStr (.bool b), rfl⟩
    | .int n => exact ⟨pyStr (.int n), rfl⟩
    | .str s => exact ⟨pyStr (.str s), rfl⟩
    | .list xs => exact ⟨pyStr (.list xs), rfl⟩
    | .dict kvs =>
        simp only [ensure_string_content]
        set m1 := if (kvs.lookup "role").isSome then kvs
                  else dictInsert kvs "role" (.str "user") with hm1
        match hc : m1.lookup "content" with
        | some content =>
            exact ⟨_, by simp only [hc, pyLookup]; exact dictInsert_lookup_self _ _ _⟩
        | Option.none =>
            exact ⟨"", by simp only [hc, pyLookup]; exact dictInsert_lookup_self _ _ _⟩
  · intro kvs hr
    simp only [ensure_string_content, hr, Option.isSome_none, Bool.false_eq_true,
      if_false, pyLookup]
    set m1 := dictInsert kvs "role" (.str "user") with hm1
    have hrole : m1.lookup "role" = some (.str "user") := dictInsert_lookup_self _ _ _
    have hne : ("role" : String) ≠ "content" := by decide
    match hc : m1.lookup "content" with
    | some content =>
        rw [dictInsert_lookup_ne _ _ _ _ hne]
        exact hrole
    | Option.none =>
        rw [dictInsert_lookup_ne _ _ _ _ hne]
        exact hrole
  · intro kvs hc
    simp only [ensure_string_content, pyLookup]
    set m1 := if (kvs.lookup "role").isSome then kvs
              else dictInsert kvs "role" (.str "user") with hm1
    have hc1 : m1.lookup "content" = Option.none := by
      rw [hm1]
      split
      · exact hc
      · rw [dictInsert_lookup_ne _ _ _ _ (by decide)]
        exact hc
    rw [hc1]
    exact dictInsert_lookup_self _ _ _
  · intro kvs hc
    simp only [ensure_string_content, pyLookup]
    set m1 := if (kvs.lookup "role").isSome then kvs
              else dictInsert kvs "role" (.str "user") with hm1
    have hc1 : m1.lookup "content" = some PyVal.none := by
      rw [hm1]
      split
      · exact hc
      · rw [dictInsert_lookup_ne _ _ _ _ (by decide)]
        exact hc
    rw [hc1]
    exact dictInsert_lookup_self _ _ _

/-- C7 witness: the theorem applied at a numeric entry and at the empty
dict, with its hypotheses discharged concretely. -/
theorem c7_witness :
    (∃ s : String, pyLookup (ensure_string_content (PyVal.int 5)) "content"
        = some (.str s))
    ∧ pyLookup (ensure_string_content (PyVal.dict [])) "role"
        = some (.str "user")
    ∧ pyLookup (ensure_string_content (PyVal.dict [])) "content"
        = some (.str "") :=
  ⟨(c7_theorem (PyVal.int 5)).1,
   (c7_theorem (PyVal.int 5)).2.2.1 [] rfl,
   (c7_theorem (PyVal.int 5)).2.2.2.1 [] rfl⟩

/-! ## Claim C9 -/

/-- C9: registering two agents under the same name (the registry update of
`load_agents_from_folder` line 89 / `reload_agents` line 312, i.e.
`dictInsert`) leaves exactly one entry for that name, the later
registration wins, key-uniqueness of the map is preserved, and
`reload_agents` over a list with two same-named agents keeps only the
later one. -/
theorem c9_theorem (pre : List (String × PyObj)) (n : String) (i1 i2 : Nat)
    (h : (pre.map Prod.fst).Nodup) :
    ((dictInsert (dictInsert pre n (.agent n i1)) n (.agent n i2)).lookup n
        = some (PyObj.agent n i2))
    ∧ countKey (dictInsert (dictInsert pre n (.agent n i1)) n (.agent n i2)) n = 1
    ∧ ((dictInsert (dictInsert pre n (.agent n i1)) n (.agent n i2)).map
        Prod.fst).Nodup
    ∧ reload_agents (.lst [.agent n i1, .agent n i2]) = [(n, .agent n i2)] := by
  refine ⟨dictInsert_lookup_self _ _ _, ?_, ?_, ?_⟩
  · exact countKey_dictInsert_self _ _ _ (nodup_keys_dictInsert _ _ _ h)
  · exact nodup_keys_dictInsert _ _ _ (nodup_keys_dictInsert _ _ _ h)
  · simp [reload_agents, dictInsert]

/-- C9 witness: the theorem applied to the empty registry and two concrete
same-named agents. -/
theorem c9_witness :
    ((dictInsert (dictInsert ([] : List (String × PyObj)) "GameWorldAgent"
        (PyObj.agent "GameWorldAgent" 0))
        "GameWorldAgent" (PyObj.agent "GameWorldAgent" 1)).lookup "GameWorldAgent"
      = some (PyObj.agent "GameWorldAgent" 1))
    ∧ countKey (dictInsert (dictInsert ([] : List (String × PyObj))
        "GameWorldAgent" (PyObj.agent "GameWorldAgent" 0)) "GameWorldAgent"
        (PyObj.agent "GameWorldAgent" 1)) "GameWorldAgent" = 1 :=
  ⟨(c9_theorem [] "GameWorldAgent" 0 1 (by simp)).1,
   (c9_theorem [] "GameWorldAgent" 0 1 (by simp)).2.1⟩

/-! ## get_response helper lemmas -/

theorem guidShape_ne_empty {s : String} (h : guidShape s = true) : s ≠ "" := by
  intro he
  rw [he] at h
  exact absurd h (by decide)

theorem resolveGuid_of_target (userGuid t : String) (gh : Option String)
    (hne : t ≠ "") (hgh : gh = Option.none ∨ gh = some t) :
    resolveGuid userGuid gh (some t) = t := by
  rcases hgh with h | h <;> subst h <;> simp only [resolveGuid]
  · by_cases ht : t = userGuid
    · subst ht
      simp [hne]
    · simp [ht]
  · by_cases ht : t = userGuid
    · subst ht
      simp [hne]
    · simp [ht]

/-! ## Claim C5 -/

/-- C5: when the utterance of the turn is exactly a guid equal to the identity
resolved for this turn, `get_response` short-circuits without any model
call or tool invocation and returns the fixed world-initialization
narrative, the fixed structured payload, and empty agent logs. -/
theorem c5_theorem (loads : String → Option Json) (reg : List (String × PyObj))
    (oM : Nat → ModelResult) (oT : Nat → ToolResult) (maxRetries fuel : Nat)
    (userGuid prompt : String) (hist : List PyVal) (gh : Option String)
    (hg : guidShape (pyStrip prompt) = true)
    (hc : check_first_message_for_guid (trimHistory hist) = .ok gh)
    (hgh : gh = Option.none ∨ gh = some (pyStrip prompt)) :
    get_response loads reg oM oT maxRetries fuel userGuid prompt hist
      = some ⟨"Game world initialized. Your adventure awaits!",
              Json.dumps (Json.obj
                [("event", Json.str "world_init"), ("status", Json.str "ready")]),
              "", 0, 0, 0⟩ := by
  have hgp : extract_user_guid prompt = some (pyStrip prompt) := by
    simp [extract_user_guid, hg]
  have hres : resolveGuid userGuid gh (some (pyStrip prompt)) = pyStrip prompt :=
    resolveGuid_of_target userGuid _ gh (guidShape_ne_empty hg) hgh
  have hsc : scFire prompt (pyStrip prompt) (some (pyStrip prompt)) = true := by
    simp [scFire]
  simp only [get_response, hc, hgp, hres, hsc, if_true]

/-- C5 witness: the theorem applied to the concrete guid utterance of Scenario 2
with empty history. -/
theorem c5_witness :
    get_response (fun _ => Option.none) [] (fun _ => ModelResult.err)
      (fun _ => ToolResult.raise "") 3 5 DEFAULT_USER_GUID
      "123e4567-e89b-12d3-a456-426614174000" []
      = some ⟨"Game world initialized. Your adventure awaits!",
              Json.dumps (Json.obj
                [("event", Json.str "world_init"), ("status", Json.str "ready")]),
              "", 0, 0, 0⟩ :=
  c5_theorem _ _ _ _ 3 5 DEFAULT_USER_GUID _ [] Option.none (by decide) rfl
    (Or.inl rfl)

/-! ## Claim C8 -/

/-- C8: when the first model decision selects a tool whose name is not in
the registry, `get_response` terminates at once — one model call, no tool
invocation, no retry — with the agent-does-not-exist narrative
and empty structured payload. -/
theorem c8_theorem (loads : String → Option Json) (reg : List (String × PyObj))
    (oM : Nat → ModelResult) (oT : Nat → ToolResult) (maxRetries fuel : Nat)
    (userGuid prompt : String) (hist : List PyVal) (gh : Option String)
    (nm : String) (args cnt : Option String)
    (hc : check_first_message_for_guid (trimHistory hist) = .ok gh)
    (hsc : scFire prompt (resolveGuid userGuid gh (extract_user_guid prompt))
            (extract_user_guid prompt) = false)
    (hm : oM 0 = .call nm args cnt)
    (hreg : reg.lookup nm = Option.none)
    (hmr : 0 < maxRetries) :
    get_response loads reg oM oT maxRetries (fuel + 1) userGuid prompt hist
      = some ⟨"Agent \x27" ++ nm ++ "\x27 does not exist", "\x7b\x7d", "",
              1, 0, 0⟩ := by
  simp only [get_response, hc, hsc, Bool.false_eq_true, if_false]
  simp only [dispatchLoop, hm, hreg, if_pos hmr]

/-- C8 witness: the theorem applied to the `DoesNotExist` tool selection of
Scenario 3 against the empty registry. -/
theorem c8_witness :
    get_response (fun _ => Option.none) [] (fun _ => ModelResult.call
      "DoesNotExist" Option.none Option.none) (fun _ => ToolResult.raise "")
      3 5 DEFAULT_USER_GUID "attack the goblin" []
      = some ⟨"Agent \x27DoesNotExist\x27 does not exist", "\x7b\x7d", "",
              1, 0, 0⟩ :=
  c8_theorem _ _ _ _ 3 4 DEFAULT_USER_GUID "attack the goblin" [] Option.none
    "DoesNotExist" Option.none Option.none rfl rfl rfl rfl (by decide)

/-! ## Claim C1 -/

/-- C1 counterexample: with every provider call raising and
`max_retries = 3`, the terminal narrative is
`"An error occurred. Please try again."` (line 560) — not the
`"Service temporarily unavailable. Please try again later."` message the
claim states (line 562, reachable only when `max_retries ≤ 0`). -/
theorem c1_counterexample :
    get_response (fun _ => Option.none) [] (fun _ => ModelResult.err)
        (fun _ => ToolResult.raise "") 3 5 DEFAULT_USER_GUID "hello" []
      = some ⟨"An error occurred. Please try again.", "\x7b\x7d", "", 3, 0, 2⟩
    ∧ "An error occurred. Please try again."
        ≠ "Service temporarily unavailable. Please try again later." :=
  ⟨rfl, by decide⟩

/-- C1 (amended): if every provider call raises and `max_retries = 3`, then
any turn that reaches the dispatch loop (history check succeeds, no
bootstrap short-circuit) makes exactly 3 provider attempts with the fixed
backoff sleep between consecutive attempts (2 sleeps), invokes no tool,
and terminates with the fixed `"An error occurred. Please try again."`
narrative and empty structured payload. -/
theorem c1_theorem (loads : String → Option Json) (reg : List (String × PyObj))
    (oM : Nat → ModelResult) (oT : Nat → ToolResult) (fuel : Nat)
    (userGuid prompt : String) (hist : List PyVal) (gh : Option String)
    (hM : ∀ k, oM k = ModelResult.err)
    (hc : check_first_message_for_guid (trimHistory hist) = .ok gh)
    (hsc : scFire prompt (resolveGuid userGuid gh (extract_user_guid prompt))
            (extract_user_guid prompt) = false) :
    get_response loads reg oM oT 3 (fuel + 3) userGuid prompt hist
      = some ⟨"An error occurred. Please try again.", "\x7b\x7d", "", 3, 0, 2⟩ := by
  simp only [get_response, hc, hsc, Bool.false_eq_true, if_false]
  have e3 : fuel + 3 = (fuel + 2) + 1 := rfl
  rw [e3]
  simp only [dispatchLoop, hM]
  norm_num

/-- C1 witness: the amended theorem applied at a concrete all-failing
provider oracle. -/
theorem c1_witness :
    get_response (fun _ => Option.none) [] (fun _ => ModelResult.err)
        (fun _ => ToolResult.raise "") 3 7 DEFAULT_USER_GUID "look around" []
      = some ⟨"An error occurred. Please try again.", "\x7b\x7d", "", 3, 0, 2⟩ :=
  c1_theorem _ _ _ _ 4 DEFAULT_USER_GUID "look around" [] Option.none
    (fun _ => rfl) rfl rfl

/-! ## Claim C2

A concrete environment in which every model call selects the registered
`GameWorldAgent` and every tool invocation returns the JSON object
whose status field is `incomplete` (so the follow-up inspection of lines 535-544
always loops back to the model). -/

/-- The Scenario 4 tool-result string: a JSON object whose status field is
`incomplete`. -/
def incStr : String := "\x7b\x22status\x22: \x22incomplete\x22\x7d"

/-- A `json.loads` behaviour agreeing with the real parser on the only
string this environment ever parses. -/
def loadsInc : String → Option Json :=
  fun s => if s = incStr then some (Json.obj [("status", Json.str "incomplete")])
           else Option.none

/-- A registry holding the one agent the model keeps selecting. -/
def regInc : List (String × PyObj) := [("GameWorldAgent", PyObj.agent "GameWorldAgent" 0)]

/-- A model oracle that always selects `GameWorldAgent`. -/
def oMInc : Nat → ModelResult :=
  fun _ => ModelResult.call "GameWorldAgent" (some "\x7b\x7d") Option.none

/-- A tool oracle that always returns the incomplete-status object. -/
def oTInc : Nat → ToolResult := fun _ => ToolResult.ret (some incStr)

/-- C2 counterexample: with `max_retries = 3`, the dispatch loop driven by
the always-incomplete environment is still running after 10 iterations
(far beyond the claimed bound of 3), so the iteration count is not bounded
by the retry budget. -/
theorem c2_counterexample :
    get_response loadsInc regInc oMInc oTInc 3 10 DEFAULT_USER_GUID
        "explore the ruins" [] = Option.none
    ∧ 3 < 10 :=
  ⟨rfl, by decide⟩

/-- C2 (amended): a follow-up loop-back (tool result parsing as a JSON
object with an error indicator, `"incomplete"` status, or
requires-additional-action flag) does not increment the retry counter, so
the multi-step tool chain is not bounded by `max_retries`: in the
always-incomplete environment the dispatch loop never terminates — for
every iteration bound the loop is still running, both at the loop level
(from any retry-0 state) and for `get_response` as a whole. -/
theorem c2_theorem :
    (∀ (fuel m t s : Nat) (logs : List String),
        dispatchLoop loadsInc regInc oMInc oTInc 3 fuel ⟨0, m, t, logs, s⟩
          = Option.none)
    ∧ (∀ fuel : Nat,
        get_response loadsInc regInc oMInc oTInc 3 fuel DEFAULT_USER_GUID
          "explore the ruins" [] = Option.none) := by
  have hnf : needsFollowUp loadsInc incStr = true := by decide
  have hloop : ∀ (fuel m t s : Nat) (logs : List String),
      dispatchLoop loadsInc regInc oMInc oTInc 3 fuel ⟨0, m, t, logs, s⟩
        = Option.none := by
    intro fuel
    induction fuel with
    | zero => intro m t s logs; rfl
    | succ fuel ih =>
        intro m t s logs
        simp only [dispatchLoop, oMInc, oTInc, regInc, hnf]
        norm_num [List.lookup]
        exact ih (m + 1) (t + 1) s _
  refine ⟨hloop, fun fuel => ?_⟩
  have hpre : get_response loadsInc regInc oMInc oTInc 3 fuel DEFAULT_USER_GUID
      "explore the ruins" []
      = dispatchLoop loadsInc regInc oMInc oTInc 3 fuel ⟨0, 0, 0, [], 0⟩ := rfl
  rw [hpre]
  exact hloop fuel 0 0 0 []

/-! ## Claims C3 and C4 -/

theorem fsRemove_fsWrite_subset (fs : List String) (p x : String)
    (hx : x ∈ fsRemove (fsWrite fs p) p) : x ∈ fs := by
  by_cases hp : fs.contains p = true
  · rw [fsWrite, if_pos hp] at hx
    exact List.erase_subset p fs hx
  · have hpm : p ∉ fs := by simpa using hp
    have hw : fsRemove (fsWrite fs p) p = fs := by
      rw [fsWrite, if_neg hp, List.concat_eq_append, fsRemove,
        List.erase_append_right _ hpm, List.erase_cons_head, List.append_nil]
    rw [hw] at hx
    exact hx

theorem loadStorageCands_fs_subset (dir : String) (cs : List StorageCand) :
    ∀ (reg : List (String × PyObj)) (fs : List String),
      (∀ c ∈ cs, c.load.throws = false) →
      ∀ x ∈ (loadStorageCands dir reg fs cs).2, x ∈ fs := by
  induction cs with
  | nil => intro reg fs _ x hx; simpa [loadStorageCands] using hx
  | cons c rest ih =>
      intro reg fs h x hx
      have hc : c.load.throws = false := h c (by simp)
      have hrest : ∀ c' ∈ rest, c'.load.throws = false :=
        fun c' hc' => h c' (by simp [hc'])
      rw [loadStorageCands] at hx
      split at hx
      · cases hr : c.read with
        | raise => rw [hr] at hx; exact ih reg fs hrest x hx
        | missing => rw [hr] at hx; exact ih reg fs hrest x hx
        | content =>
            rw [hr] at hx
            simp only [hc, Bool.false_eq_true, if_false] at hx
            have := ih _ _ hrest x hx
            exact fsRemove_fsWrite_subset fs _ x this
      · exact ih reg fs hrest x hx

/-- C3 counterexample: a dynamically fetched candidate whose loading throws
after materialization leaves its scratch file `/tmp/agents/evil_agent.py`
behind — the final scratch state of discovery is not empty, contradicting the
claimed guaranteed release. -/
theorem c3_counterexample :
    (load_agents_from_folder
        ⟨[], .ok [⟨"evil_agent.py", ReadResult.content, ⟨[], true⟩⟩], .ok []⟩).2
      = ["/tmp/agents/evil_agent.py"] := rfl

/-- C3 (amended): the scratch file of a dynamically fetched candidate is
removed after loading only on the success path; when no candidate load
throws, discovery leaves the scratch area empty, but a candidate that
throws between materialization and `os.remove` leaves its file behind
(there is no `finally`-based release). -/
theorem c3_theorem (o : DiscoveryOracle)
    (hA : ∀ cs, o.listAgents = .ok cs → ∀ c ∈ cs, c.load.throws = false)
    (hM : ∀ cs, o.listMulti = .ok cs → ∀ c ∈ cs, c.load.throws = false) :
    (load_agents_from_folder o).2 = [] := by
  rw [load_agents_from_folder]
  have step1sub : ∀ x ∈ (match o.listAgents with
      | .error _ => (loadLocalCands [] o.localCands, ([] : List String))
      | .ok cs => loadStorageCands "/tmp/agents" (loadLocalCands [] o.localCands)
          [] cs).2, False := by
    intro x hx
    cases hl : o.listAgents with
    | error e => rw [hl] at hx; simp at hx
    | ok cs =>
        rw [hl] at hx
        have := loadStorageCands_fs_subset "/tmp/agents" cs _ [] (hA cs hl) x hx
        simp at this
  cases hl2 : o.listMulti with
  | error e =>
      exact List.eq_nil_iff_forall_not_mem.mpr fun x hx => step1sub x hx
  | ok cs =>
      refine List.eq_nil_iff_forall_not_mem.mpr fun x hx => ?_
      exact step1sub x (loadStorageCands_fs_subset "/tmp/multi_agents" cs _ _
        (hM cs hl2) x hx)

/-- C3 witness: the amended theorem applied to a discovery run with one
successfully loading storage candidate. -/
theorem c3_witness :
    (load_agents_from_folder
        ⟨[], .ok [⟨"good_agent.py", ReadResult.content,
                   ⟨[("Good", PyObj.agent "Good" 1)], false⟩⟩], .error ()⟩).2
      = [] := by
  refine c3_theorem _ ?_ ?_
  · intro cs hcs c hc
    injection hcs with h
    subst h
    simp only [List.mem_singleton] at hc
    subst hc
    rfl
  · intro cs hcs
    exact absurd hcs (by simp)

/-- C4: discovery absorbs every candidate and storage failure — with one
bundled candidate that throws during instantiation (registering nothing)
and one that succeeds, and the storage namespaces behaving arbitrarily
badly (listing raises, or lists nothing), `load_agents_from_folder`
returns (it never raises: every raise point is inside a `try/except` that
logs and continues) and the registry contains exactly the successful
tool. -/
theorem c4_theorem (f g n : String) (i : Nat) (lr : LoadResult)
    (e1 e2 : Except Unit (List StorageCand))
    (hf : localCandOk f = true) (hg : localCandOk g = true)
    (hlr : lr.regs = [] ∧ lr.throws = true)
    (h1 : e1 = .error () ∨ e1 = .ok []) (h2 : e2 = .error () ∨ e2 = .ok []) :
    load_agents_from_folder
        ⟨[(f, lr), (g, ⟨[(n, PyObj.agent n i)], false⟩)], e1, e2⟩
      = ([(n, PyObj.agent n i)], []) := by
  have hreg : loadLocalCands []
      [(f, lr), (g, ⟨[(n, PyObj.agent n i)], false⟩)] = [(n, PyObj.agent n i)] := by
    rw [loadLocalCands, if_pos hf, hlr.1]
    rw [loadLocalCands, if_pos hg]
    rfl
  rw [load_agents_from_folder]
  rcases h1 with h1 | h1 <;> rcases h2 with h2 | h2 <;>
    simp only [h1, h2, loadStorageCands, hreg]

/-- C4 witness: the theorem applied to the concrete throwing and succeeding
candidates of Scenario 6 with a raising storage backend. -/
theorem c4_witness :
    load_agents_from_folder
        ⟨[("bad_agent.py", ⟨[], true⟩),
          ("good_agent.py", ⟨[("Good", PyObj.agent "Good" 1)], false⟩)],
         .error (), .error ()⟩
      = ([("Good", PyObj.agent "Good" 1)], []) :=
  c4_theorem "bad_agent.py" "good_agent.py" "Good" 1 ⟨[], true⟩ _ _
    (by decide) (by decide) ⟨rfl, rfl⟩ (Or.inl rfl) (Or.inl rfl)

/-! ## Claim C6 -/

theorem splitDelim_of_none {s : List Char} (h : findDelim s = Option.none) :
    splitDelim s = [s] := by
  rw [splitDelim, h]

theorem splitDelim_of_some {s p q : List Char} (h : findDelim s = some (p, q)) :
    splitDelim s = p :: splitDelim q := by
  rw [splitDelim, h]

theorem findDelim_append_of_noPipe (a b : List Char)
    (h : a.all (fun c => !(c == '|')) = true) :
    findDelim (a ++ delimChars ++ b) = some (a, b) := by
  induction a with
  | nil =>
      simp only [List.nil_append]
      have hcons : delimChars ++ b
          = '|' :: (('|' :: '|' :: 'G' :: 'A' :: 'M' :: 'E' :: '_' :: 'D' :: 'A' :: 'T' :: 'A' :: '|' :: '|' :: '|' :: []) ++ b) := rfl
      rw [hcons, findDelim]
      have hpre : delimChars.isPrefixOf
          ('|' :: (('|' :: '|' :: 'G' :: 'A' :: 'M' :: 'E' :: '_' :: 'D' :: 'A' :: 'T' :: 'A' :: '|' :: '|' :: '|' :: []) ++ b)) = true := by
        rw [← hcons]
        exact List.isPrefixOf_iff_prefix.mpr (List.prefix_append _ _)
      rw [if_pos hpre]
      have hdrop : ('|' :: (('|' :: '|' :: 'G' :: 'A' :: 'M' :: 'E' :: '_' :: 'D' :: 'A' :: 'T' :: 'A' :: '|' :: '|' :: '|' :: []) ++ b)).drop 15 = b := by
        rw [← hcons]
        exact List.drop_left delimChars b
      rw [hdrop]
  | cons c a' ih =>
      simp only [List.all_cons, Bool.and_eq_true] at h
      have hc : (c == '|') = false := by
        rcases h with ⟨h1, _⟩
        cases hcc : c == '|'
        · rfl
        · rw [hcc] at h1; exact absurd h1 (by decide)
      have ih' := ih h.2
      simp only [List.cons_append]
      rw [findDelim]
      have hnp : delimChars.isPrefixOf (c :: (a' ++ delimChars ++ b)) = false := by
        have hstep : delimChars.isPrefixOf (c :: (a' ++ delimChars ++ b))
            = (('|' == c) && (('|' :: '|' :: 'G' :: 'A' :: 'M' :: 'E' :: '_' :: 'D' :: 'A' :: 'T' :: 'A' :: '|' :: '|' :: '|' :: []).isPrefixOf (a' ++ delimChars ++ b))) := rfl
        have hcomm : ('|' == c) = false := by
          simp only [beq_eq_false_iff_ne] at hc ⊢
          exact fun he => hc he.symm
        rw [hstep, hcomm, Bool.false_and]
      rw [hnp]
      simp only [Bool.false_eq_true, if_false]
      rw [ih']

/-- C6 counterexample: encoding the narrative `" x "` (legal: narratives are
arbitrary strings) with the empty structured object and decoding does not
reproduce the narrative — the decoder strips surrounding whitespace
(line 436), yielding `"x"`. -/
theorem c6_counterexample :
    parse_response_with_game_data
        (fun s => if s = "\x7b\x7d" then some (Json.obj []) else Option.none)
        (" x " ++ "|||GAME_DATA|||" ++ Json.dumps (Json.obj []))
      ≠ (" x ", Json.obj []) := by
  have henc : " x " ++ "|||GAME_DATA|||" ++ Json.dumps (Json.obj [])
      = " x |||GAME_DATA|||\x7b\x7d" := rfl
  have hf1 : findDelim (" x |||GAME_DATA|||\x7b\x7d".data)
      = some (" x ".data, "\x7b\x7d".data) := by decide
  have hf2 : findDelim ("\x7b\x7d".data) = Option.none := by decide
  have heval : parse_response_with_game_data
      (fun s => if s = "\x7b\x7d" then some (Json.obj []) else Option.none)
      (" x " ++ "|||GAME_DATA|||" ++ Json.dumps (Json.obj []))
      = ("x", Json.obj []) := by
    rw [henc, parse_response_with_game_data, if_neg (by decide),
      splitDelim_of_some hf1, splitDelim_of_none hf2]
    rfl
  intro heq
  rw [heval] at heq
  have := congrArg Prod.fst heq
  exact absurd this (by decide)

/-- C6 (amended): decoding `narrative ++ "|||GAME_DATA|||" ++ payload`
reproduces the narrative and the structured object, provided the narrative
contains no `|` character (so no delimiter occurrence overlaps it) and is
unchanged by whitespace-stripping, and the serialized payload contains no
delimiter occurrence, is unchanged by stripping, and parses back to the
structured object (the `json` round-trip contract). -/
theorem c6_theorem (loads : String → Option Json) (a b : String) (j : Json)
    (h1 : a.data.all (fun c => !(c == '|')) = true)
    (h2 : pyStrip a = a)
    (h3 : findDelim b.data = Option.none)
    (h4 : pyStrip b = b)
    (h5 : loads b = some j) :
    parse_response_with_game_data loads (a ++ "|||GAME_DATA|||" ++ b) = (a, j) := by
  have hdd : ("|||GAME_DATA|||" : String).data = delimChars := rfl
  have hdata : (a ++ "|||GAME_DATA|||" ++ b).data = a.data ++ delimChars ++ b.data := by
    rw [String.data_append, String.data_append, hdd]
  have hne : ¬(a ++ "|||GAME_DATA|||" ++ b = "") := by
    intro he
    have : (a ++ "|||GAME_DATA|||" ++ b).data = [] := by rw [he]
    rw [hdata] at this
    simp [delimChars] at this
  have hsplit : splitDelim ((a ++ "|||GAME_DATA|||" ++ b).data)
      = [a.data, b.data] := by
    rw [hdata, splitDelim_of_some (findDelim_append_of_noPipe a.data b.data h1),
      splitDelim_of_none h3]
  rw [parse_response_with_game_data, if_neg hne, hsplit]
  have ea : String.mk a.data = a := rfl
  have eb : String.mk b.data = b := rfl
  simp only [ea, eb, h2, h4, h5, Option.getD_some]

/-- C6 witness: the amended theorem applied to a concrete narrative and a
concrete serialized object, with the parser behaving as `json.loads` does
on that serialization. -/
theorem c6_witness :
    parse_response_with_game_data
        (fun s => if s = "\x7b\x22event\x22: \x22boss\x22\x7d"
                  then some (Json.obj [("event", Json.str "boss")])
                  else Option.none)
        ("The dragon roars." ++ "|||GAME_DATA|||"
          ++ "\x7b\x22event\x22: \x22boss\x22\x7d")
      = ("The dragon roars.", Json.obj [("event", Json.str "boss")]) :=
  c6_theorem _ "The dragon roars." "\x7b\x22event\x22: \x22boss\x22\x7d"
    (Json.obj [("event", Json.str "boss")]) (by decide) (by decide) (by decide)
    (by decide) (by simp)

/-! ## Claim C10 -/

theorem dispatchLoop_gameData (loads : String → Option Json)
    (reg : List (String × PyObj)) (oM : Nat → ModelResult)
    (oT : Nat → ToolResult) (maxR : Nat) :
    ∀ (fuel : Nat) (st : LoopState) (out : GOut),
      dispatchLoop loads reg oM oT maxR fuel st = some out →
      out.gameData = "\x7b\x7d" ∨ ∃ j : Json, out.gameData = Json.dumps j := by
  intro fuel
  induction fuel with
  | zero => intro st out h; simp [dispatchLoop] at h
  | succ fuel ih =>
      intro st out h
      rw [dispatchLoop] at h
      split at h
      · split at h
        · -- provider error on the first call
          split at h
          · exact ih _ _ h
          · obtain rfl := Option.some.inj h; left; rfl
        · -- direct reply
          obtain rfl := Option.some.inj h
          right; exact ⟨_, rfl⟩
        · -- tool call
          split at h
          · obtain rfl := Option.some.inj h; left; rfl
          · split at h
            · obtain rfl := Option.some.inj h; left; rfl
            · simp only [] at h
              split at h
              · exact ih _ _ h
              · split at h
                · split at h
                  · exact ih _ _ h
                  · obtain rfl := Option.some.inj h; left; rfl
                · obtain rfl := Option.some.inj h
                  right; exact ⟨_, rfl⟩
      · obtain rfl := Option.some.inj h; left; rfl

/-- C10: every terminating run of `get_response` — direct reply,
short-circuit, unknown agent, tool-execution error, retry exhaustion,
retry-budget-exhausted entry, and the outer critical-error handler — has a
`game_data` component that is either the empty-object literal or `json.dumps` of
a JSON value, hence always parses as JSON, for any behaviour of the model,
tools, parser and registry. -/
theorem c10_theorem (loads : String → Option Json) (reg : List (String × PyObj))
    (oM : Nat → ModelResult) (oT : Nat → ToolResult) (maxR fuel : Nat)
    (ug prompt : String) (hist : List PyVal) (out : GOut)
    (h : get_response loads reg oM oT maxR fuel ug prompt hist = some out) :
    out.gameData = "\x7b\x7d" ∨ ∃ j : Json, out.gameData = Json.dumps j := by
  rw [get_response] at h
  split at h
  · obtain rfl := Option.some.inj h; left; rfl
  · simp only [] at h
    split at h
    · obtain rfl := Option.some.inj h
      right; exact ⟨_, rfl⟩
    · exact dispatchLoop_gameData loads reg oM oT maxR fuel _ _ h

/-- C10 witness: the theorem applied to a concrete direct-reply run. -/
theorem c10_witness :
    (⟨"", Json.dumps (Json.obj []), "", 1, 0, 0⟩ : GOut).gameData = "\x7b\x7d"
    ∨ ∃ j : Json,
        (⟨"", Json.dumps (Json.obj []), "", 1, 0, 0⟩ : GOut).gameData
          = Json.dumps j :=
  c10_theorem (fun _ => Option.none) [] (fun _ => ModelResult.reply (some ""))
    (fun _ => ToolResult.raise "") 3 1 DEFAULT_USER_GUID "hello" [] _ rfl

